import Mathlib

/-!
Verification of the checkpointed task-dispatcher pattern of the
Multi-Agent-Learning-Assistance-System repository.

The development shallowly embeds the relevant parts of
Code/assess_mastery.py, Code/generate_tutoring_content.py,
Code/run_experiment.py and Code/data_script/llm_utils.py:
pure functions become Lean functions, the asynchronous scheduler becomes a
step relation on an explicit state type, and fallible remote calls become
values of Except.
-/

namespace MALAS

/-! ## Python string primitives

The scripts manipulate text with the Python str methods.  These are embedded
as structurally recursive functions over the character list of a String, so
that every definition evaluates inside the kernel on concrete inputs. -/

/-- Characters removed by the Python method str.strip() (ASCII whitespace). -/
def isPyWhitespace (c : Char) : Bool :=
  c == ' ' || c == '\t' || c == '\n' || c == '\r' || c == '\x0b' || c == '\x0c'

/-- str.strip() on a character list. -/
def stripChars (l : List Char) : List Char :=
  ((l.dropWhile isPyWhitespace).reverse.dropWhile isPyWhitespace).reverse

/-- Python str.strip(). -/
def pyStrip (s : String) : String := ⟨stripChars s.data⟩

/-- str.split of a single separator character; the result is always
non-empty and an empty input yields one empty piece, as in Python. -/
def splitLinesChars : List Char → List (List Char)
  | [] => [[]]
  | c :: rest =>
    let r := splitLinesChars rest
    if c == '\n' then [] :: r
    else
      match r with
      | [] => [[c]]
      | h :: t => (c :: h) :: t

/-- Python text.split of the newline character. -/
def pySplitNewline (s : String) : List String := (splitLinesChars s.data).map (fun l => ⟨l⟩)

/-- Python str.startswith. -/
def pyStartsWith (s pre : String) : Bool := pre.data.isPrefixOf s.data

/-- Python slicing s[n:] for a character count n. -/
def pyDrop (s : String) (n : Nat) : String := ⟨s.data.drop n⟩

/-- Python str.lower (ASCII case folding as in Char.toLower). -/
def pyToLower (s : String) : String := ⟨s.data.map Char.toLower⟩

/-- Substring occurrence test over character lists; the empty pattern
occurs in every text, matching the Python operator in. -/
def charsContains (pat : List Char) : List Char → Bool
  | [] => pat.isEmpty
  | c :: rest => pat.isPrefixOf (c :: rest) || charsContains pat rest

/-- Python substring containment test, pat in s. -/
def pyContains (s pat : String) : Bool := charsContains pat.data s.data

/-! ## CSV cell semantics

The checkpoint store is a CSV file written with DataFrame.to_csv and read
back with pandas.read_csv (Code/assess_mastery.py lines 220-231).
pandas.read_csv with default options converts a fixed set of cell texts to
the missing value NaN; every other cell text is kept verbatim.  The
completion check of load_request_manifest is stated on the read-back value
(notna and comparison with the empty string), so the cell semantics is part
of the resolver behaviour. -/

/-- Cell texts that pandas.read_csv interprets as missing (NaN) under its
default na_values configuration, as used by the read_csv calls in
Code/assess_mastery.py. -/
def pandasDefaultNA : List String :=
  ["", "#N/A", "#N/A N/A", "#NA", "-1.#IND", "-1.#QNAN", "-NaN", "-nan",
   "1.#IND", "1.#QNAN", "<NA>", "N/A", "NA", "NULL", "NaN", "None",
   "n/a", "nan", "null"]

/-- Reading back a cell that was written as the text s: NaN (none) for the
default NA tokens, the text itself otherwise. -/
def readCell (s : String) : Option String :=
  if pandasDefaultNA.contains s then none else some s

/-- The completion test of load_request_manifest (assess_mastery.py line 228):
a result row counts as done when its mastery_level cell is non-null after
read_csv (notna) and is not the empty string. -/
def doneCell (cell : String) : Bool :=
  match readCell cell with
  | none => false
  | some v => v != ""

/-! ## Manifest and checkpoint rows (assess_mastery.py) -/

/-- One row of the request manifest CSV written by generate_request_manifest
(assess_mastery.py lines 178-190): the composite key (student_id, kc_name)
plus the two prompt texts.  The result columns of the manifest are left
blank and never consulted, so they are omitted. -/
structure ManifestRow where
  student_id : Nat
  kc_name : String
  system_prompt : String
  user_prompt : String
deriving DecidableEq

/-- One row of the results CSV appended by save_results_batch
(assess_mastery.py lines 709-718).  mastery_level holds the cell text as
written; reading it back goes through readCell. -/
structure ResultRow where
  student_id : Nat
  kc_name : String
  mastery_level : String
  rationale : String
  suggestions : String
  llm_raw_response : String
deriving DecidableEq

/-- The processed_pairs set of load_request_manifest (assess_mastery.py
lines 224-230): composite keys of result rows whose mastery_level is
non-null and non-empty. -/
def processedPairs (results : List ResultRow) : List (Nat × String) :=
  (results.filter (fun r => doneCell r.mastery_level)).map
    (fun r => (r.student_id, r.kc_name))

/-- The pending-request selection of load_request_manifest (assess_mastery.py
lines 232-245): manifest rows, with their manifest index, whose composite
key is not in processed_pairs, in manifest order. -/
def load_request_manifest (manifest : List ManifestRow) (results : List ResultRow) :
    List (Nat × ManifestRow) :=
  manifest.enum.filter
    (fun p => !(processedPairs results).contains (p.2.student_id, p.2.kc_name))

/-! ## Response parsing (assess_mastery.py lines 446-470) -/

/-- Marker for which output field a parsed line belongs to (the current_key
variable of parse_llm_response). -/
inductive RespKey
  | mastery
  | rationale
  | suggestions
deriving DecidableEq

/-- Parsed structured fields of one LLM response. -/
structure ParsedResp where
  masteryLevel : String
  rationale : String
  suggestions : String
deriving DecidableEq

/-- Continuation lines are appended to the field selected by current_key. -/
def appendToKey (p : ParsedResp) (k : RespKey) (s : String) : ParsedResp :=
  match k with
  | .mastery => { p with masteryLevel := p.masteryLevel ++ s }
  | .rationale => { p with rationale := p.rationale ++ s }
  | .suggestions => { p with suggestions := p.suggestions ++ s }

/-- The line loop of parse_llm_response.  A line starting with one of the
three field markers sets that field to the text after the first colon,
stripped; any other line is appended (with a leading space) to the field of
the most recent marker, or skipped when no marker has been seen. -/
def parseLines : List String → ParsedResp → Option RespKey → ParsedResp
  | [], p, _ => p
  | line :: rest, p, cur =>
    let l := pyStrip line
    if pyStartsWith l "Mastery Level:" then
      parseLines rest { p with masteryLevel := pyStrip (pyDrop l 14) } (some .mastery)
    else if pyStartsWith l "Rationale:" then
      parseLines rest { p with rationale := pyStrip (pyDrop l 10) } (some .rationale)
    else if pyStartsWith l "Suggestions:" then
      parseLines rest { p with suggestions := pyStrip (pyDrop l 12) } (some .suggestions)
    else
      match cur with
      | some k => parseLines rest (appendToKey p k (" " ++ l)) cur
      | none => parseLines rest p cur

/-- parse_llm_response (assess_mastery.py lines 446-470): every field starts
at the sentinel "N/A" and the stripped response is scanned line by line.
The drop counts are the lengths of the three markers, matching
line.split of the first colon, since the only colon of each marker is its last
character. -/
def parse_llm_response (text : String) : ParsedResp :=
  parseLines (pySplitNewline (pyStrip text)) ⟨"N/A", "N/A", "N/A"⟩ none

/-! ## One dispatched task (delayed_request, assess_mastery.py lines 680-742) -/

/-- The raw response recorded for one awaited call: the response text on
success, or the failure marker holding the exception text
(assess_mastery.py lines 700-705). -/
def rawResponse (outcome : Except String String) : String :=
  match outcome with
  | .ok t => t
  | .error e => "LLM_CALL_FAILED: " ++ e

/-- The result record built by delayed_request for one manifest row
(assess_mastery.py lines 708-718), given the outcome of its remote call. -/
def resultRecordOf (row : ManifestRow) (outcome : Except String String) : ResultRow :=
  let raw := rawResponse outcome
  let parsed := parse_llm_response raw
  { student_id := row.student_id
    kc_name := row.kc_name
    mastery_level := parsed.masteryLevel
    rationale := parsed.rationale
    suggestions := parsed.suggestions
    llm_raw_response := raw }

/-- The checkpoint rows produced by a first run against an empty results
file: every manifest row is pending, is dispatched, and its record is
flushed before exit (delayed_request plus the final save of main). -/
def firstRunResults (manifest : List ManifestRow)
    (call : ManifestRow → Except String String) : List ResultRow :=
  (load_request_manifest manifest []).map (fun p => resultRecordOf p.2 (call p.2))

/-! ## Retry policy

Two retry loops exist in the sources: the per-task loop of
execute_single_request (run_experiment.py lines 1105-1155) and the
batch-level loop of concurrent_user_sys_call_with_retry
(data_script/llm_utils.py lines 82-177). -/

/-- Rate-limit classification applied to per-result error strings
(llm_utils.py line 140): the lowered text contains 429, rate limit, or too
many requests. -/
def isRateLimitText (e : String) : Bool :=
  pyContains (pyToLower e) "429" || pyContains (pyToLower e) "rate limit" ||
    pyContains (pyToLower e) "too many requests"

/-- Rate-limit classification applied in the exception handler of
concurrent_user_sys_call_with_retry (llm_utils.py line 160): only 429 and
rate limit are checked there. -/
def isRateLimitExc (e : String) : Bool :=
  pyContains (pyToLower e) "429" || pyContains (pyToLower e) "rate limit"

/-- Observable outcome of execute_single_request on one task: how many
remote calls were made, which backoff waits were slept in order, and the
returned result or error field. -/
structure ExecOutcome where
  numCalls : Nat
  waits : List Nat
  result : Option String
  error : Option String
deriving DecidableEq

/-- The attempt loop of execute_single_request (run_experiment.py lines
1119-1155).  call k is the outcome of the k-th remote call; on an
exception the loop either gives up (when the delay list is exhausted,
returning the last error) or sleeps the next delay and calls again.  Every
exception takes this path: the loop does not inspect the error class. -/
def execRetryLoop (call : Nat → Except String String) : Nat → List Nat → ExecOutcome
  | attempt, [] =>
    match call attempt with
    | .ok r => { numCalls := 1, waits := [], result := some r, error := none }
    | .error e => { numCalls := 1, waits := [], result := none, error := some e }
  | attempt, d :: rest =>
    match call attempt with
    | .ok r => { numCalls := 1, waits := [], result := some r, error := none }
    | .error _ =>
      let o := execRetryLoop call (attempt + 1) rest
      { o with numCalls := o.numCalls + 1, waits := d :: o.waits }

/-- execute_single_request with its retry_delays list (the source fixes
retry_delays = [5, 10, 30] at line 1116). -/
def execute_single_request (call : Nat → Except String String)
    (retry_delays : List Nat) : ExecOutcome :=
  execRetryLoop call 0 retry_delays

/-- One per-request entry of the result list returned by a concurrent batch
call in llm_utils.py: the optional error field is what the 429 scan reads. -/
structure BatchResult where
  error : Option String
deriving DecidableEq

/-- The 429 scan over the results of a batch (llm_utils.py lines 136-142); a
result participates only when its error field is truthy (present and
non-empty). -/
def batchHasRateLimit (results : List BatchResult) : Bool :=
  results.any (fun r =>
    match r.error with
    | some e => !(e == "") && isRateLimitText e
    | none => false)

/-- The attempt loop of concurrent_user_sys_call_with_retry (llm_utils.py
lines 117-174), returning the number of batch calls made, the waits slept,
and either the final result list or the re-raised exception text.
A returned batch with a rate-limit error is retried after the next delay
until the delays are exhausted, then returned as-is; a raised exception is
retried only when its text is rate-limit class, and otherwise re-raised at
once.  When the delays are exhausted the error classification no longer
changes the outcome (the batch is returned, respectively the exception
re-raised, either way), so the base case returns the outcome of the call
directly. -/
def concRetryLoop (callBatch : Nat → Except String (List BatchResult)) :
    Nat → List Nat → Nat × List Nat × Except String (List BatchResult)
  | attempt, [] =>
    (1, [], callBatch attempt)
  | attempt, d :: rest =>
    match callBatch attempt with
    | .ok results =>
      if batchHasRateLimit results then
        let o := concRetryLoop callBatch (attempt + 1) rest
        (o.1 + 1, d :: o.2.1, o.2.2)
      else (1, [], .ok results)
    | .error e =>
      if isRateLimitExc e then
        let o := concRetryLoop callBatch (attempt + 1) rest
        (o.1 + 1, d :: o.2.1, o.2.2)
      else (1, [], .error e)

/-- concurrent_user_sys_call_with_retry over its retry_delays parameter
(default [5, 10, 30] in the source). -/
def concurrent_user_sys_call_with_retry (callBatch : Nat → Except String (List BatchResult))
    (retry_delays : List Nat) : Nat × List Nat × Except String (List BatchResult) :=
  concRetryLoop callBatch 0 retry_delays

/-! ## Concurrency governor

Both assess_mastery.py (line 661) and run_experiment.py (line 1103) gate the
remote call of every task with async with semaphore on an
asyncio.Semaphore built from the configured concurrency.  The scheduler is
embedded as a step relation: a waiting task may be admitted when fewer than
limit tasks hold a slot, and an admitted task may finish and release its
slot; the interleaving is otherwise unconstrained. -/

/-- Scheduler state: task identifiers that are pending (waiting on the
semaphore), admitted (inside the async with block), and finished. -/
structure SchedState where
  pending : List Nat
  admitted : List Nat
  finished : List Nat
deriving DecidableEq

/-- Admission steps: when the admitted set is below the semaphore value,
any pending task may acquire a slot. -/
def admitSteps (limit : Nat) (s : SchedState) : List SchedState :=
  if s.admitted.length < limit then
    s.pending.map (fun t =>
      { pending := s.pending.erase t, admitted := t :: s.admitted, finished := s.finished })
  else []

/-- Completion steps: any admitted task may finish its call and release
its slot. -/
def finishSteps (s : SchedState) : List SchedState :=
  s.admitted.map (fun t =>
    { pending := s.pending, admitted := s.admitted.erase t, finished := t :: s.finished })

/-- All states reachable in one scheduler step. -/
def nextStates (limit : Nat) (s : SchedState) : List SchedState :=
  admitSteps limit s ++ finishSteps s

/-- Initial state: every task of the dispatched list is pending. -/
def initState (tasks : List Nat) : SchedState :=
  { pending := tasks, admitted := [], finished := [] }

/-- Reachability under an arbitrary interleaving of scheduler steps. -/
inductive Reachable (limit : Nat) (start : SchedState) : SchedState → Prop
  | refl : Reachable limit start start
  | step {s t : SchedState} :
      Reachable limit start s → t ∈ nextStates limit s → Reachable limit start t

/-- The concurrency configuration of assess_mastery.py main (lines
557-565): argparse supplies the default 30 when --concurrency is absent,
and the parsed value is handed to asyncio.Semaphore without any
validation. -/
def parsedConcurrency (cliValue : Option Nat) : Nat :=
  cliValue.getD 30

/-! ## Batch persister (assess_mastery.py) -/

/-- The results CSV as a file: whether a header line was written, and the
appended rows. -/
structure CsvFile where
  hasHeader : Bool
  rows : List ResultRow
deriving DecidableEq

/-- save_results_batch (assess_mastery.py lines 99-123).  writeOk models
whether the to_csv write raises; the except clause catches the exception
and only prints a failure message, so the caller never observes it.  The
returned flag records that the failure was logged.  An empty batch returns
immediately.  The first write (first batch or missing file) writes the
header in mode w; later writes append without a header. -/
def save_results_batch (writeOk : Bool) (batch : List ResultRow)
    (file : Option CsvFile) (isFirstBatch : Bool) : Option CsvFile × Bool :=
  if batch.isEmpty then (file, false)
  else if !writeOk then (file, true)
  else if isFirstBatch || file.isNone then (some ⟨true, batch⟩, false)
  else
    match file with
    | some f => (some ⟨f.hasHeader, f.rows ++ batch⟩, false)
    | none => (some ⟨true, batch⟩, false)

/-- In-memory persister state shared by the delayed_request coroutines of
assess_mastery.py: the buffered batch, the results file, the
is_first_batch flag, the total_saved counter, and how many flush failures
were logged. -/
structure BatchState where
  buffer : List ResultRow
  file : Option CsvFile
  isFirstBatch : Bool
  totalSaved : Nat
  failLogs : Nat
deriving DecidableEq

/-- State at the start of a fresh run with no results file yet:
is_first_batch = not os.path.exists(results_path) is true. -/
def freshBatchState : BatchState :=
  { buffer := [], file := none, isFirstBatch := true, totalSaved := 0, failLogs := 0 }

/-- One execution of the buffered-save critical section of delayed_request
(assess_mastery.py lines 721-730), serialized by batch_lock: append the
record; if the buffer reached BATCH_SIZE, save it, add its length to
total_saved, clear it and reset is_first_batch.  The counting and the
clear happen whether or not the write inside save_results_batch
succeeded. -/
def buffer_outcome (batchSize : Nat) (writeOk : Bool) (st : BatchState)
    (r : ResultRow) : BatchState :=
  if batchSize ≤ (st.buffer ++ [r]).length then
    { buffer := []
      file := (save_results_batch writeOk (st.buffer ++ [r]) st.file st.isFirstBatch).1
      isFirstBatch := false
      totalSaved := st.totalSaved + (st.buffer ++ [r]).length
      failLogs := st.failLogs +
        (if (save_results_batch writeOk (st.buffer ++ [r]) st.file st.isFirstBatch).2
          then 1 else 0) }
  else
    { st with buffer := st.buffer ++ [r] }

/-- The flush of the remaining batch after asyncio.gather
(assess_mastery.py lines 754-759). -/
def final_flush (writeOk : Bool) (st : BatchState) : BatchState :=
  if st.buffer.isEmpty then st
  else
    { buffer := []
      file := (save_results_batch writeOk st.buffer st.file st.isFirstBatch).1
      isFirstBatch := false
      totalSaved := st.totalSaved + st.buffer.length
      failLogs := st.failLogs +
        (if (save_results_batch writeOk st.buffer st.file st.isFirstBatch).2
          then 1 else 0) }

/-- Rows currently in the results file. -/
def rowsOf (file : Option CsvFile) : List ResultRow :=
  match file with
  | none => []
  | some f => f.rows

/-- A whole run of the persister over the sequence of completed outcomes
(the serialization order of the batch_lock critical sections), with the
final flush, starting from a fresh state and with every write succeeding. -/
def run_batching (batchSize : Nat) (outcomes : List ResultRow) : BatchState :=
  final_flush true (outcomes.foldl (buffer_outcome batchSize true) freshBatchState)

/-- Invariant of the assess_mastery persister during a fresh run in which
every write succeeds: file rows plus buffer hold exactly the processed
outcomes in order, the buffer stays strictly below the flush threshold,
the file grew only by whole batches, the first-batch flag implies the
file does not exist yet, and any existing file carries its header. -/
def BatchInv (batchSize : Nat) (processed : List ResultRow) (st : BatchState) : Prop :=
  rowsOf st.file ++ st.buffer = processed ∧
  st.buffer.length < batchSize ∧
  batchSize ∣ (rowsOf st.file).length ∧
  (st.isFirstBatch = true → st.file = none) ∧
  (∀ f, st.file = some f → f.hasHeader = true)

/-! ## Batch persister of generate_tutoring_content.py -/

/-- One tutoring result record as built by generate_tutoring_for_single_kc
(generate_tutoring_content.py lines 420-428). -/
structure TutRecord where
  student_id : Nat
  kc_name : String
  tutoring_content : String
  example_question_ids : String
  llm_raw_response : String
  prompt_system : String
  prompt_user : String
deriving DecidableEq

/-- Buffer-and-file state of the tutoring main loop. -/
structure TutState where
  buffer : List TutRecord
  fileRows : List TutRecord
deriving DecidableEq

/-- The per-completion buffering of generate_tutoring_content.py main
(lines 736-752): the whole record list of the finished student is extended onto
all_results, and the whole buffer is flushed when its length reached
batch_size = 10.  Returns the chunk handed to save_results_batch (empty
when no flush fired) together with the new state. -/
def tutoring_buffer_step (batchSize : Nat) (st : TutState)
    (results : List TutRecord) : List TutRecord × TutState :=
  let buf := st.buffer ++ results
  if batchSize ≤ buf.length then
    (buf, { buffer := [], fileRows := st.fileRows ++ buf })
  else
    ([], { st with buffer := buf })

/-! ## Example-question selection (generate_tutoring_content.py lines 125-184) -/

/-- One row of the Question_Choices table as consulted by the selector. -/
structure ChoiceRow where
  question_id : Nat
  choice_text : String
  is_correct : Bool
deriving DecidableEq

/-- An entry of the picked list: one rendered example question. -/
structure RenderedChoice where
  letter : String
  text : String
deriving DecidableEq

/-- The record appended to picked for one chosen question. -/
structure PickedQuestion where
  question_id : Nat
  question_text : String
  choices : List RenderedChoice
  correct_letter : Option String
  correct_text : Option String
deriving DecidableEq

/-- Truncation helper of generate_tutoring_content.py lines 115-123 on a
string input (a non-string input maps to the empty string before this
point). -/
def truncate_text (text : String) (maxLength : Nat) : String :=
  let t := pyStrip text
  if maxLength < t.data.length then ⟨t.data.take maxLength⟩ ++ "..." else t

/-- Rendering of one candidate question inside the selection loop (lines
147-182): the truncated question text, lettered choices in table order,
and the last choice marked correct, if any. -/
def renderQuestion (question_text_map : List (Nat × String))
    (question_choices_df : List ChoiceRow) (qid : Nat) : PickedQuestion :=
  let qText := truncate_text ((question_text_map.lookup qid).getD "") 150
  let choices := question_choices_df.filter (fun c => c.question_id == qid)
  if choices.isEmpty then
    { question_id := qid, question_text := qText, choices := [],
      correct_letter := none, correct_text := none }
  else
    let letterOf : Nat → String := fun i => ⟨[Char.ofNat (65 + i)]⟩
    let rendered := choices.enum.map (fun p =>
      { letter := letterOf p.1, text := p.2.choice_text : RenderedChoice })
    let corr := choices.enum.foldl
      (fun acc p => if p.2.is_correct then (some (letterOf p.1), some p.2.choice_text) else acc)
      ((none : Option String), (none : Option String))
    { question_id := qid, question_text := qText, choices := rendered,
      correct_letter := corr.1, correct_text := corr.2 }

/-- The picking loop over the shuffled candidates: stop once max_num
questions are picked, otherwise render and append the next candidate. -/
def pickLoop (maxNum : Nat) (question_text_map : List (Nat × String))
    (question_choices_df : List ChoiceRow) :
    List Nat → List PickedQuestion → List PickedQuestion
  | [], picked => picked
  | qid :: rest, picked =>
    if maxNum ≤ picked.length then picked
    else pickLoop maxNum question_text_map question_choices_df rest
      (picked ++ [renderQuestion question_text_map question_choices_df qid])

/-- The selector of generate_tutoring_content.py lines 125-184 (source name
with a leading underscore): look up the question
pool, exclude every test-set question, shuffle the rest and pick at most
max_num of them.  The in-place random.shuffle is passed in as the shuffle
argument. -/
def select_three_questions_for_kc (kc_name : String)
    (kc_to_questions_map : List (String × List Nat)) (test_question_ids : List Nat)
    (question_text_map : List (Nat × String)) (question_choices_df : List ChoiceRow)
    (shuffle : List Nat → List Nat) (maxNum : Nat) : List PickedQuestion :=
  let question_ids := (kc_to_questions_map.lookup kc_name).getD []
  if question_ids.isEmpty then []
  else
    let available := question_ids.filter (fun qid => !test_question_ids.contains qid)
    let candidates := shuffle available
    pickLoop maxNum question_text_map question_choices_df candidates []

/-! ## Model routing (data_script/llm_utils.py lines 20-50) -/

/-- The three LLM backend modules the router can return. -/
inductive LLMModule
  | qwen
  | doubao
  | mid_journey
deriving DecidableEq

/-- get_llm_module: case-insensitive substring dispatch with qwen first,
then doubao, then gpt (routed to mid_journey), and doubao as the default
for every other name. -/
def get_llm_module (model_name : String) : LLMModule :=
  let lower := pyToLower model_name
  if pyContains lower "qwen" then .qwen
  else if pyContains lower "doubao" then .doubao
  else if pyContains lower "gpt" then .mid_journey
  else .doubao

/-! ## Concrete inputs used by witnesses and counterexamples -/

/-- Manifest used by the C1 witness: two tasks of one student. -/
def c1wManifest : List ManifestRow :=
  [⟨4, "Decimals", "s", "u"⟩, ⟨4, "Ratios", "s", "u"⟩]

/-- Store used by the C1 witness: a done record plus a blank duplicate for
the first key. -/
def c1wResults : List ResultRow :=
  [⟨4, "Decimals", "Proficient", "r", "g", "raw"⟩,
   ⟨4, "Decimals", "", "r", "g", "raw"⟩]

/-- Manifest used by the C2 counterexample: a single task. -/
def c2cManifest : List ManifestRow := [⟨7, "Algebra", "sys", "ask"⟩]

/-- Remote call of the C2 counterexample: the call raises on every task. -/
def c2cCall : ManifestRow → Except String String := fun _ => .error "connection reset"

/-- Manifest used by the C2 witness. -/
def c2wManifest : List ManifestRow :=
  [⟨1, "Addition", "sys", "ask"⟩, ⟨2, "Subtraction", "sys", "ask"⟩]

/-- Remote call of the C2 witness: every call succeeds with a parseable
response. -/
def c2wCall : ManifestRow → Except String String :=
  fun _ => .ok "Mastery Level: Proficient\nRationale: consistent\nSuggestions: none"

/-- Per-task call of the C3 witness: every attempt hits the rate limiter. -/
def c3wCall : Nat → Except String String := fun _ => .error "HTTP 429: Too Many Requests"

/-- Batch call of the C3 witness: every attempt returns a result carrying a
rate-limit error. -/
def c3wBatch : Nat → Except String (List BatchResult) :=
  fun _ => .ok [⟨some "429 rate limit exceeded"⟩]

/-- Batch call of the C4 witness raising a non-rate-limit exception. -/
def c4wBatchErr : Nat → Except String (List BatchResult) := fun _ => .error "model refused"

/-- Batch call of the C4 witness returning results with a non-rate-limit
per-task error. -/
def c4wBatchOk : Nat → Except String (List BatchResult) :=
  fun _ => .ok [⟨some "bad payload"⟩, ⟨none⟩]

/-- Sample checkpoint rows for the C6 witness. -/
def c6row (n : Nat) : ResultRow := ⟨n, "KC", "Proficient", "steady", "none", "raw"⟩

/-- Sample tutoring record for the C6 counterexample and witness. -/
def c6tut : TutRecord := ⟨3, "Fractions", "content", "[1, 2]", "raw", "sys", "ask"⟩

/-- Record used by the C7 counterexample. -/
def c7rec : ResultRow := ⟨9, "Geometry", "Novice", "weak", "practice", "raw"⟩

/-- Persister state used by the C7 witness: one record already buffered,
past the first batch. -/
def c7wst : BatchState := ⟨[⟨1, "a", "Mastered", "r", "s", "w"⟩], none, false, 3, 0⟩

/-- Record appended by the C7 witness. -/
def c7wrec : ResultRow := ⟨2, "b", "Novice", "r", "s", "w"⟩

/-! ## Supporting lemmas -/

/-- Membership in processed_pairs is exactly having a done record with the
same composite key. -/
theorem processedPairs_contains (results : List ResultRow) (sid : Nat) (kc : String) :
    (processedPairs results).contains (sid, kc) =
      results.any (fun r =>
        ((sid == r.student_id) && (kc == r.kc_name)) && doneCell r.mastery_level) := by
  induction results with
  | nil => rfl
  | cons r rs ih =>
    rw [List.any_cons]
    by_cases h : doneCell r.mastery_level
    · rw [show processedPairs (r :: rs) = (r.student_id, r.kc_name) :: processedPairs rs from by
        simp [processedPairs, List.filter_cons, h]]
      rw [List.contains_cons, ih]
      rw [show ((sid, kc) == (r.student_id, r.kc_name)) =
          ((sid == r.student_id) && (kc == r.kc_name)) from rfl]
      simp [h]
    · rw [show processedPairs (r :: rs) = processedPairs rs from by
        simp [processedPairs, List.filter_cons, h]]
      rw [ih]
      simp [h]

/-- With an empty results file every manifest row is pending. -/
theorem load_request_manifest_nil (manifest : List ManifestRow) :
    load_request_manifest manifest [] = manifest.enum := by
  simp [load_request_manifest, processedPairs]

/-- The second component of an enumerated entry is a member of the list. -/
theorem snd_mem_of_mem_enum {α : Type} {p : Nat × α} {l : List α}
    (h : p ∈ l.enum) : p.2 ∈ l := by
  obtain ⟨i, a⟩ := p
  obtain ⟨hi, ha⟩ := List.mem_enum h
  exact ha ▸ List.getElem_mem hi

/-! ## Claims -/

/-- C1: load_request_manifest returns exactly the manifest tasks, in
manifest order and with their manifest index, whose composite key
(student_id, kc_name) has no result record whose mastery_level reads back
non-null and non-empty; a key with such a record is never returned, and
duplicate records for a key cannot make it appear more than once since the
output is a filter of the manifest itself. -/
theorem c1_pending_set_resolution (manifest : List ManifestRow) (results : List ResultRow) :
    load_request_manifest manifest results =
      manifest.enum.filter (fun p =>
        !(results.any (fun r =>
          ((p.2.student_id == r.student_id) && (p.2.kc_name == r.kc_name)) &&
            doneCell r.mastery_level))) := by
  unfold load_request_manifest
  refine List.filter_congr ?_
  intro p _
  rw [processedPairs_contains]

/-- C1 witness: the characterization evaluated at a concrete manifest and
store holding one done record and one blank duplicate. -/
theorem c1_witness :
    load_request_manifest c1wManifest c1wResults =
      c1wManifest.enum.filter (fun p =>
        !(c1wResults.any (fun r =>
          ((p.2.student_id == r.student_id) && (p.2.kc_name == r.kc_name)) &&
            doneCell r.mastery_level))) :=
  c1_pending_set_resolution c1wManifest c1wResults

/-- C2 (amended): when every first-run response parses to a mastery_level
cell that reads back from the checkpoint CSV as non-null and non-empty,
the second run computes an empty pending set and dispatches nothing. -/
theorem c2_second_run_empty_when_done (manifest : List ManifestRow)
    (call : ManifestRow → Except String String)
    (h : ∀ row ∈ manifest,
      doneCell (parse_llm_response (rawResponse (call row))).masteryLevel = true) :
    load_request_manifest manifest (firstRunResults manifest call) = [] := by
  unfold load_request_manifest
  rw [List.filter_eq_nil_iff]
  intro p hp
  rw [Bool.not_eq_true, Bool.not_eq_false']
  rw [processedPairs_contains]
  refine List.any_eq_true.mpr ⟨resultRecordOf p.2 (call p.2), ?_, ?_⟩
  · unfold firstRunResults
    rw [load_request_manifest_nil]
    exact List.mem_map.mpr ⟨p, hp, rfl⟩
  · have hm : p.2 ∈ manifest := snd_mem_of_mem_enum hp
    simp [resultRecordOf, h p.2 hm]

/-- C2 witness: a two-task manifest whose calls both succeed with parseable
responses leaves nothing pending on the second run. -/
theorem c2_witness :
    load_request_manifest c2wManifest (firstRunResults c2wManifest c2wCall) = [] :=
  c2_second_run_empty_when_done c2wManifest c2wCall (by decide)

/-- C2 counterexample: a single-task manifest whose call fails reaches a
terminal recorded-failure state with mastery_level "N/A"; that cell is a
pandas NA token, so it reads back as null, the task does not count as
done, and the second run dispatches it again (pending set of size one, not
zero). -/
theorem c2_counterexample :
    (firstRunResults c2cManifest c2cCall).map (fun r => r.mastery_level) = ["N/A"] ∧
    (firstRunResults c2cManifest c2cCall).map (fun r => r.llm_raw_response) =
      ["LLM_CALL_FAILED: connection reset"] ∧
    load_request_manifest c2cManifest (firstRunResults c2cManifest c2cCall) =
      [(0, ⟨7, "Algebra", "sys", "ask"⟩)] := by
  decide

/-- When every attempt raises, the per-task loop makes one call per delay
plus the initial one, sleeps the delays in order, and ends with the last
error. -/
theorem execRetryLoop_all_errors (call : Nat → Except String String)
    (delays : List Nat) :
    ∀ attempt : Nat, (∀ k, ∃ e, call k = Except.error e) →
      (execRetryLoop call attempt delays).numCalls = delays.length + 1 ∧
      (execRetryLoop call attempt delays).waits = delays ∧
      (execRetryLoop call attempt delays).result = none ∧
      (execRetryLoop call attempt delays).error.isSome = true := by
  induction delays with
  | nil =>
    intro attempt h
    obtain ⟨e, he⟩ := h attempt
    simp [execRetryLoop, he]
  | cons d rest ih =>
    intro attempt h
    obtain ⟨e, he⟩ := h attempt
    obtain ⟨h1, h2, h3, h4⟩ := ih (attempt + 1) h
    simp [execRetryLoop, he, h1, h2, h3, h4]

/-- When every batch attempt returns results containing a rate-limit error,
the batch loop makes one call per delay plus the initial one, sleeps the
delays in order, and returns the last (still failing) result list. -/
theorem concRetryLoop_all_rate_limited (cb : Nat → Except String (List BatchResult))
    (delays : List Nat) :
    ∀ attempt : Nat, (∀ k, ∃ rs, cb k = Except.ok rs ∧ batchHasRateLimit rs = true) →
      (concRetryLoop cb attempt delays).1 = delays.length + 1 ∧
      (concRetryLoop cb attempt delays).2.1 = delays ∧
      ∃ rs, (concRetryLoop cb attempt delays).2.2 = Except.ok rs ∧
        batchHasRateLimit rs = true := by
  induction delays with
  | nil =>
    intro attempt h
    obtain ⟨rs, he, hrl⟩ := h attempt
    refine ⟨?_, ?_, rs, ?_, hrl⟩ <;> simp [concRetryLoop, he, hrl]
  | cons d rest ih =>
    intro attempt h
    obtain ⟨rs, he, hrl⟩ := h attempt
    obtain ⟨h1, h2, h3⟩ := ih (attempt + 1) h
    obtain ⟨rs', he', hrl'⟩ := h3
    refine ⟨?_, ?_, rs', ?_, hrl'⟩ <;> simp [concRetryLoop, he, hrl, h1, h2, he']

/-- C3: a task whose remote call yields a rate-limit-class error on every
attempt is retried exactly once per entry of the backoff sequence
(default [5, 10, 30], so three retries after the initial attempt), the
waits are slept in sequence order, and after exhaustion the task is
recorded as failed rather than retried again — both in the per-task loop
of execute_single_request and in the batch loop of
concurrent_user_sys_call_with_retry. -/
theorem c3_rate_limit_retry_sequence :
    (∀ call : Nat → Except String String,
      (∀ k, ∃ e, call k = Except.error e ∧ isRateLimitText e = true) →
      (execute_single_request call [5, 10, 30]).numCalls = 3 + 1 ∧
      (execute_single_request call [5, 10, 30]).waits = [5, 10, 30] ∧
      (execute_single_request call [5, 10, 30]).result = none ∧
      (execute_single_request call [5, 10, 30]).error.isSome = true) ∧
    (∀ cb : Nat → Except String (List BatchResult),
      (∀ k, ∃ rs, cb k = Except.ok rs ∧ batchHasRateLimit rs = true) →
      (concurrent_user_sys_call_with_retry cb [5, 10, 30]).1 = 3 + 1 ∧
      (concurrent_user_sys_call_with_retry cb [5, 10, 30]).2.1 = [5, 10, 30] ∧
      ∃ rs, (concurrent_user_sys_call_with_retry cb [5, 10, 30]).2.2 = Except.ok rs ∧
        batchHasRateLimit rs = true) := by
  constructor
  · intro call h
    exact execRetryLoop_all_errors call [5, 10, 30] 0
      (fun k => (h k).imp (fun e he => he.1))
  · intro cb h
    exact concRetryLoop_all_rate_limited cb [5, 10, 30] 0 h

/-- C3 witness: with a call that always answers HTTP 429 and a batch that
always carries a 429 result, both loops make exactly four calls and sleep
5, 10 and 30 seconds. -/
theorem c3_witness :
    (execute_single_request c3wCall [5, 10, 30]).numCalls = 3 + 1 ∧
    (execute_single_request c3wCall [5, 10, 30]).waits = [5, 10, 30] ∧
    (concurrent_user_sys_call_with_retry c3wBatch [5, 10, 30]).1 = 3 + 1 ∧
    (concurrent_user_sys_call_with_retry c3wBatch [5, 10, 30]).2.1 = [5, 10, 30] :=
  ⟨(c3_rate_limit_retry_sequence.1 c3wCall
      (fun _ => ⟨"HTTP 429: Too Many Requests", rfl, by decide⟩)).1,
   (c3_rate_limit_retry_sequence.1 c3wCall
      (fun _ => ⟨"HTTP 429: Too Many Requests", rfl, by decide⟩)).2.1,
   (c3_rate_limit_retry_sequence.2 c3wBatch
      (fun _ => ⟨[⟨some "429 rate limit exceeded"⟩], rfl, by decide⟩)).1,
   (c3_rate_limit_retry_sequence.2 c3wBatch
      (fun _ => ⟨[⟨some "429 rate limit exceeded"⟩], rfl, by decide⟩)).2.1⟩

/-- C4 counterexample: in execute_single_request a task failing with the
non-rate-limit error "invalid payload" is not terminated at the first
attempt: the loop makes four calls, sleeping 5, 10 and 30 seconds between
them, before surfacing the error. -/
theorem c4_counterexample :
    isRateLimitText "invalid payload" = false ∧
    isRateLimitExc "invalid payload" = false ∧
    (execute_single_request (fun _ => Except.error "invalid payload") [5, 10, 30]).numCalls = 4 ∧
    (execute_single_request (fun _ => Except.error "invalid payload") [5, 10, 30]).waits =
      [5, 10, 30] ∧
    (execute_single_request (fun _ => Except.error "invalid payload") [5, 10, 30]).error =
      some "invalid payload" := by
  decide

/-- C4 (amended): only concurrent_user_sys_call_with_retry treats
non-rate-limit errors as permanent at the first attempt: an exception
whose text is not rate-limit class is re-raised at once without any retry
or wait, and a returned batch without rate-limit errors is returned after
the single attempt, its per-task errors surfaced in the result list; the
per-task loop of execute_single_request instead retries every error. -/
theorem c4_non_rate_limit_not_retried :
    (∀ (cb : Nat → Except String (List BatchResult)) (delays : List Nat) (e : String),
      cb 0 = Except.error e → isRateLimitExc e = false →
      concurrent_user_sys_call_with_retry cb delays = (1, [], Except.error e)) ∧
    (∀ (cb : Nat → Except String (List BatchResult)) (delays : List Nat)
      (rs : List BatchResult),
      cb 0 = Except.ok rs → batchHasRateLimit rs = false →
      concurrent_user_sys_call_with_retry cb delays = (1, [], Except.ok rs)) := by
  constructor
  · intro cb delays e h0 hrl
    unfold concurrent_user_sys_call_with_retry
    cases delays with
    | nil => simp [concRetryLoop, h0]
    | cons d rest => simp [concRetryLoop, h0, hrl]
  · intro cb delays rs h0 hrl
    unfold concurrent_user_sys_call_with_retry
    cases delays with
    | nil => simp [concRetryLoop, h0]
    | cons d rest => simp [concRetryLoop, h0, hrl]

/-- C4 witness: a raised non-rate-limit exception and a returned batch with
a non-rate-limit per-task error both finish after exactly one attempt. -/
theorem c4_witness :
    concurrent_user_sys_call_with_retry c4wBatchErr [5, 10, 30] =
      (1, [], Except.error "model refused") ∧
    concurrent_user_sys_call_with_retry c4wBatchOk [5, 10, 30] =
      (1, [], Except.ok [⟨some "bad payload"⟩, ⟨none⟩]) :=
  ⟨c4_non_rate_limit_not_retried.1 c4wBatchErr [5, 10, 30] "model refused" rfl (by decide),
   c4_non_rate_limit_not_retried.2 c4wBatchOk [5, 10, 30] [⟨some "bad payload"⟩, ⟨none⟩]
     rfl (by decide)⟩

/-- C5 counterexample: the configuration path accepts concurrency 0
(parsedConcurrency maps it through unchanged, no error value exists in the
flow), yet the semaphore built from it admits nothing: with one pending
task the scheduler has no successor state at all, so the task is never
admitted and the run makes no progress; a missing value is interpreted as
the argparse default 30, not rejected. -/
theorem c5_counterexample :
    parsedConcurrency (some 0) = 0 ∧
    parsedConcurrency none = 30 ∧
    (initState [0]).pending = [0] ∧
    nextStates 0 (initState [0]) = [] := by
  decide

/-- C5 (amended): a concurrency of 0 is not rejected as a configuration
error; it is interpreted as silently admitting no tasks: every state
reachable from the initial one under limit 0 is the initial state itself
with an empty admitted set, and a missing concurrency value defaults to
30. -/
theorem c5_zero_concurrency_admits_no_tasks :
    (∀ (tasks : List Nat) (s : SchedState),
      Reachable 0 (initState tasks) s → s = initState tasks ∧ s.admitted = []) ∧
    parsedConcurrency none = 30 := by
  constructor
  · intro tasks s h
    induction h with
    | refl => exact ⟨rfl, rfl⟩
    | step hr hmem ih =>
      rw [ih.1] at hmem
      simp [nextStates, admitSteps, finishSteps, initState] at hmem
  · rfl

/-- C5 witness: the amended theorem applied to the initial state of a
one-task run under limit 0. -/
theorem c5_witness :
    initState [5] = initState [5] ∧ (initState [5]).admitted = [] :=
  c5_zero_concurrency_admits_no_tasks.1 [5] (initState [5]) Reachable.refl

/-- C8: for every task list, every concurrency limit, and every
interleaving of admission and completion steps, every reachable scheduler
state has at most limit tasks holding an admitted slot. -/
theorem c8_admitted_bounded (limit : Nat) (tasks : List Nat) (s : SchedState)
    (h : Reachable limit (initState tasks) s) :
    s.admitted.length ≤ limit := by
  induction h with
  | refl => simp [initState]
  | step hr hmem ih =>
    rename_i s' t
    rcases List.mem_append.mp hmem with hA | hF
    · unfold admitSteps at hA
      by_cases hlt : s'.admitted.length < limit
      · rw [if_pos hlt] at hA
        obtain ⟨x, _, rfl⟩ := List.mem_map.mp hA
        simpa using hlt
      · rw [if_neg hlt] at hA
        simp at hA
    · obtain ⟨x, _, rfl⟩ := List.mem_map.mp hF
      exact le_trans (List.Sublist.length_le (List.erase_sublist x s'.admitted)) ih

/-- C8 witness: the bound evaluated at a concrete reachable state of a
three-task run with limit 2, after one admission step. -/
theorem c8_witness : (SchedState.mk [1, 2] [0] []).admitted.length ≤ 2 :=
  c8_admitted_bounded 2 [0, 1, 2] ⟨[1, 2], [0], []⟩
    (Reachable.step Reachable.refl (by decide))

/-- The invariant holds at the start of a fresh run. -/
theorem batchInv_fresh (batchSize : Nat) (hpos : 0 < batchSize) :
    BatchInv batchSize [] freshBatchState := by
  refine ⟨rfl, by simpa [freshBatchState] using hpos, ?_, fun _ => rfl, fun f hf => by cases hf⟩
  simp [freshBatchState, rowsOf]

/-- One successful-buffering step preserves the invariant and extends the
processed list by the new record. -/
theorem batchInv_step (batchSize : Nat) (hpos : 0 < batchSize)
    (processed : List ResultRow) (st : BatchState) (r : ResultRow)
    (hInv : BatchInv batchSize processed st) :
    BatchInv batchSize (processed ++ [r]) (buffer_outcome batchSize true st r) := by
  obtain ⟨hcons, hlen, hdvd, hfirst, hhead⟩ := hInv
  unfold buffer_outcome
  by_cases hfl : batchSize ≤ (st.buffer ++ [r]).length
  · rw [if_pos hfl]
    have hne : (st.buffer ++ [r]).isEmpty = false := by simp
    have hexact : st.buffer.length + 1 = batchSize :=
      le_antisymm (Nat.succ_le_of_lt hlen) (by simpa using hfl)
    cases hf : st.file with
    | none =>
      have hsave : save_results_batch true (st.buffer ++ [r]) none st.isFirstBatch =
          (some ⟨true, st.buffer ++ [r]⟩, false) := by
        unfold save_results_batch
        simp [hne]
      rw [hsave]
      rw [hf] at hcons
      refine ⟨?_, by simpa using hpos, ?_, by simp, ?_⟩
      · simp only [rowsOf, List.append_nil] at hcons ⊢
        rw [← hcons]
        simp
      · simp only [rowsOf]
        exact ⟨1, by simpa using hexact⟩
      · intro f hf'
        simp only [Option.some.injEq] at hf'
        rw [← hf']
    | some f =>
      have hfb : st.isFirstBatch = false := by
        cases hsb : st.isFirstBatch
        · rfl
        · have := hfirst hsb
          rw [hf] at this
          cases this
      have hsave : save_results_batch true (st.buffer ++ [r]) (some f) false =
          (some ⟨f.hasHeader, f.rows ++ (st.buffer ++ [r])⟩, false) := by
        unfold save_results_batch
        simp [hne]
      rw [hfb, hsave]
      rw [hf] at hcons
      refine ⟨?_, by simpa using hpos, ?_, by simp, ?_⟩
      · simp only [rowsOf, List.append_nil] at hcons ⊢
        rw [← hcons]
        simp
      · rw [hf] at hdvd
        simp only [rowsOf] at hdvd ⊢
        have hx : (st.buffer ++ [r]).length = batchSize := by simpa using hexact
        rw [List.length_append, hx]
        exact Nat.dvd_add hdvd dvd_rfl
      · intro f' hf'
        simp only [Option.some.injEq] at hf'
        rw [← hf']
        exact hhead f hf
  · rw [if_neg hfl]
    refine ⟨?_, Nat.lt_of_not_le hfl, hdvd, hfirst, hhead⟩
    rw [← List.append_assoc, hcons]

/-- The invariant propagates through the whole outcome sequence. -/
theorem batchInv_foldl (batchSize : Nat) (hpos : 0 < batchSize) :
    ∀ (outcomes processed : List ResultRow) (st : BatchState),
      BatchInv batchSize processed st →
      BatchInv batchSize (processed ++ outcomes)
        (outcomes.foldl (buffer_outcome batchSize true) st) := by
  intro outcomes
  induction outcomes with
  | nil => intro processed st h; simpa using h
  | cons r rest ih =>
    intro processed st h
    rw [List.foldl_cons]
    have h3 := ih (processed ++ [r]) _ (batchInv_step batchSize hpos processed st r h)
    simpa [List.append_assoc] using h3

/-- The final flush of a successful run empties the buffer and leaves
exactly the processed outcomes in the file. -/
theorem final_flush_complete (batchSize : Nat) (processed : List ResultRow)
    (st : BatchState) (hInv : BatchInv batchSize processed st) :
    rowsOf (final_flush true st).file = processed ∧ (final_flush true st).buffer = [] := by
  obtain ⟨hcons, hlen, hdvd, hfirst, hhead⟩ := hInv
  unfold final_flush
  by_cases hb : st.buffer.isEmpty
  · rw [if_pos hb]
    have hnil : st.buffer = [] := by simpa using hb
    rw [hnil, List.append_nil] at hcons
    exact ⟨hcons, hnil⟩
  · rw [if_neg hb]
    have hne : st.buffer.isEmpty = false := by simpa using hb
    cases hf : st.file with
    | none =>
      have hsave : save_results_batch true st.buffer none st.isFirstBatch =
          (some ⟨true, st.buffer⟩, false) := by
        unfold save_results_batch
        simp [hne]
      rw [hsave]
      rw [hf] at hcons
      simp only [rowsOf] at hcons ⊢
      exact ⟨by simpa using hcons, trivial⟩
    | some f =>
      have hfb : st.isFirstBatch = false := by
        cases hsb : st.isFirstBatch
        · rfl
        · have := hfirst hsb
          rw [hf] at this
          cases this
      have hsave : save_results_batch true st.buffer (some f) false =
          (some ⟨f.hasHeader, f.rows ++ st.buffer⟩, false) := by
        unfold save_results_batch
        simp [hne]
      rw [hfb, hsave]
      rw [hf] at hcons
      simp only [rowsOf] at hcons ⊢
      exact ⟨hcons, trivial⟩

/-- C6 (amended): in assess_mastery, where results are buffered one record
at a time under the batch lock, the buffer never exceeds the flush
threshold, a run flushes everything (file rows end up exactly the
outcome sequence with an empty buffer), and after exactly batchSize
outcomes the file holds exactly those batchSize rows even before the
final flush; in generate_tutoring_content, records are buffered per
student and the flush fires whenever the buffer has reached or passed the
threshold, writing the entire buffer — possibly more than the threshold —
and clearing it. -/
theorem c6_batch_flush_threshold (batchSize : Nat) (hpos : 0 < batchSize) :
    (∀ outcomes : List ResultRow,
      rowsOf (run_batching batchSize outcomes).file = outcomes ∧
      (run_batching batchSize outcomes).buffer = [] ∧
      (∀ k : Nat,
        ((outcomes.take k).foldl (buffer_outcome batchSize true)
          freshBatchState).buffer.length < batchSize) ∧
      (outcomes.length = batchSize →
        rowsOf ((outcomes.foldl (buffer_outcome batchSize true)
          freshBatchState).file) = outcomes)) ∧
    (∀ (st : TutState) (results : List TutRecord),
      batchSize ≤ st.buffer.length + results.length →
      (tutoring_buffer_step batchSize st results).1 = st.buffer ++ results ∧
      (tutoring_buffer_step batchSize st results).2.buffer = [] ∧
      (tutoring_buffer_step batchSize st results).2.fileRows =
        st.fileRows ++ (st.buffer ++ results)) := by
  constructor
  · intro outcomes
    have hrun := batchInv_foldl batchSize hpos outcomes [] freshBatchState
      (batchInv_fresh batchSize hpos)
    rw [List.nil_append] at hrun
    have hfin := final_flush_complete batchSize outcomes _ hrun
    refine ⟨hfin.1, hfin.2, ?_, ?_⟩
    · intro k
      have h2 := batchInv_foldl batchSize hpos (outcomes.take k) [] freshBatchState
        (batchInv_fresh batchSize hpos)
      exact h2.2.1
    · intro hlenEq
      obtain ⟨hcons, hlt, hdvd, _, _⟩ := hrun
      have hsum : (rowsOf (outcomes.foldl (buffer_outcome batchSize true)
          freshBatchState).file).length +
          (outcomes.foldl (buffer_outcome batchSize true) freshBatchState).buffer.length =
          batchSize := by
        rw [← List.length_append, hcons, hlenEq]
      obtain ⟨c, hc⟩ := hdvd
      have hbuf0 : (outcomes.foldl (buffer_outcome batchSize true)
          freshBatchState).buffer.length = 0 := by
        rcases c with _ | c'
        · rw [Nat.mul_zero] at hc
          omega
        · have hge : batchSize ≤ (rowsOf (outcomes.foldl (buffer_outcome batchSize true)
              freshBatchState).file).length := by
            rw [hc]
            calc batchSize = batchSize * 1 := (Nat.mul_one batchSize).symm
              _ ≤ batchSize * (c' + 1) := Nat.mul_le_mul_left batchSize (by omega)
          omega
      have hbufnil : (outcomes.foldl (buffer_outcome batchSize true)
          freshBatchState).buffer = [] := List.length_eq_zero.mp hbuf0
      rw [hbufnil, List.append_nil] at hcons
      exact hcons
  · intro st results hge
    unfold tutoring_buffer_step
    rw [if_pos (by simpa using hge)]
    exact ⟨rfl, rfl, rfl⟩

/-- C6 witness: with threshold 2, two buffered outcomes end up as exactly
the two file rows, and a tutoring buffer that reached the threshold is
flushed whole. -/
theorem c6_witness :
    rowsOf (run_batching 2 [c6row 1, c6row 2]).file = [c6row 1, c6row 2] ∧
    (tutoring_buffer_step 2 ⟨[], []⟩ [c6tut, c6tut]).1 =
      (TutState.mk [] []).buffer ++ [c6tut, c6tut] :=
  ⟨((c6_batch_flush_threshold 2 (by decide)).1 [c6row 1, c6row 2]).1,
   ((c6_batch_flush_threshold 2 (by decide)).2 ⟨[], []⟩ [c6tut, c6tut] (by decide)).1⟩

/-- C6 counterexample: in the main loop of generate_tutoring_content, one
completed student contributing 12 records with batch_size 10 puts 12
records in the buffer before anything is written — exceeding the
threshold — and the single flush then writes 12 rows, not exactly 10. -/
theorem c6_counterexample :
    (tutoring_buffer_step 10 ⟨[], []⟩ (List.replicate 12 c6tut)).1.length = 12 ∧
    (tutoring_buffer_step 10 ⟨[], []⟩ (List.replicate 12 c6tut)).2.fileRows.length = 12 ∧
    ¬(12 ≤ 10) := by
  decide

/-- C7 (amended): when the write inside save_results_batch fails, the file
is unchanged and the failure is logged, but the caller still counts the
batch as saved and clears the buffer, so the buffered records are dropped
from memory rather than retained for a later flush attempt. -/
theorem c7_flush_failure_drops_records (batchSize : Nat) (st : BatchState)
    (r : ResultRow) (h : batchSize ≤ st.buffer.length + 1) :
    (buffer_outcome batchSize false st r).file = st.file ∧
    (buffer_outcome batchSize false st r).buffer = [] ∧
    (buffer_outcome batchSize false st r).failLogs = st.failLogs + 1 ∧
    (buffer_outcome batchSize false st r).totalSaved =
      st.totalSaved + (st.buffer.length + 1) := by
  unfold buffer_outcome
  rw [if_pos (by simpa using h)]
  have hsave : save_results_batch false (st.buffer ++ [r]) st.file st.isFirstBatch =
      (st.file, true) := by
    unfold save_results_batch
    rw [if_neg (by simp)]
    simp
  rw [hsave]
  refine ⟨rfl, rfl, by simp, by simp⟩

/-- C7 witness: the amended theorem at a concrete state with one buffered
record, threshold 2 and a failing write. -/
theorem c7_witness :
    (buffer_outcome 2 false c7wst c7wrec).file = c7wst.file ∧
    (buffer_outcome 2 false c7wst c7wrec).buffer = [] ∧
    (buffer_outcome 2 false c7wst c7wrec).failLogs = c7wst.failLogs + 1 ∧
    (buffer_outcome 2 false c7wst c7wrec).totalSaved =
      c7wst.totalSaved + (c7wst.buffer.length + 1) :=
  c7_flush_failure_drops_records 2 c7wst c7wrec (by decide)

/-- C7 counterexample: with threshold 1 and a failing write, the flushed
record is neither in the file (still absent) nor retained in the buffer
(cleared), while the failure was logged and total_saved still counted it:
the batch contents are dropped, not retained. -/
theorem c7_counterexample :
    (buffer_outcome 1 false freshBatchState c7rec).buffer = [] ∧
    (buffer_outcome 1 false freshBatchState c7rec).file = none ∧
    (buffer_outcome 1 false freshBatchState c7rec).failLogs = 1 ∧
    (buffer_outcome 1 false freshBatchState c7rec).totalSaved = 1 := by
  decide

/-- The picking loop appends the rendered candidates in order until max_num
questions are picked. -/
theorem pickLoop_eq (maxNum : Nat) (question_text_map : List (Nat × String))
    (question_choices_df : List ChoiceRow) :
    ∀ (cands : List Nat) (picked : List PickedQuestion),
      pickLoop maxNum question_text_map question_choices_df cands picked =
        picked ++ (cands.map (renderQuestion question_text_map question_choices_df)).take
          (maxNum - picked.length) := by
  intro cands
  induction cands with
  | nil => intro picked; simp [pickLoop]
  | cons q rest ih =>
    intro picked
    unfold pickLoop
    by_cases h : maxNum ≤ picked.length
    · rw [if_pos h, Nat.sub_eq_zero_of_le h]
      simp
    · rw [if_neg h, ih]
      have hstep : maxNum - picked.length = (maxNum - (picked.length + 1)) + 1 := by omega
      simp only [List.map_cons, List.length_append, List.length_cons, List.length_nil,
        Nat.zero_add, hstep, List.take_succ_cons, List.append_assoc, List.singleton_append]

/-- Rendering a candidate keeps its question identifier. -/
theorem renderQuestion_question_id (question_text_map : List (Nat × String))
    (question_choices_df : List ChoiceRow) (qid : Nat) :
    (renderQuestion question_text_map question_choices_df qid).question_id = qid := by
  unfold renderQuestion
  by_cases h : (question_choices_df.filter (fun c => c.question_id == qid)).isEmpty
  · simp [h]
  · simp [h]

/-- C9: for every knowledge component, every kc-to-questions map, and every
set of test-set question ids, the example-question selection returns at
most three questions and never a test-set question, for every permutation
the shuffle may produce. -/
theorem c9_selection_excludes_test_questions (kc_name : String)
    (kc_to_questions_map : List (String × List Nat)) (test_question_ids : List Nat)
    (question_text_map : List (Nat × String)) (question_choices_df : List ChoiceRow)
    (shuffle : List Nat → List Nat) (hshuffle : ∀ l : List Nat, (shuffle l).Perm l) :
    (select_three_questions_for_kc kc_name kc_to_questions_map test_question_ids
      question_text_map question_choices_df shuffle 3).length ≤ 3 ∧
    ∀ p ∈ select_three_questions_for_kc kc_name kc_to_questions_map test_question_ids
        question_text_map question_choices_df shuffle 3,
      test_question_ids.contains p.question_id = false := by
  unfold select_three_questions_for_kc
  by_cases hq : ((kc_to_questions_map.lookup kc_name).getD []).isEmpty
  · rw [if_pos hq]
    exact ⟨by simp, by simp⟩
  · rw [if_neg hq, pickLoop_eq]
    simp only [List.nil_append, List.length_nil, Nat.sub_zero]
    constructor
    · exact le_trans (List.length_take_le 3 _) le_rfl
    · intro p hp
      obtain ⟨qid, hqid, rfl⟩ := List.mem_map.mp (List.mem_of_mem_take hp)
      have hmem : qid ∈ ((kc_to_questions_map.lookup kc_name).getD []).filter
          (fun q => !test_question_ids.contains q) :=
        (hshuffle _).mem_iff.mp hqid
      have hflt := (List.mem_filter.mp hmem).2
      rw [renderQuestion_question_id]
      simpa using hflt

/-- C9 witness: with the identity shuffle on a four-question pool and one
held-out test question, three questions are picked and the test question
is excluded. -/
theorem c9_witness :
    (select_three_questions_for_kc "Fractions" [("Fractions", [1, 2, 3, 4])] [2]
      [] [] id 3).length ≤ 3 ∧
    [2].contains (renderQuestion [] [] 1).question_id = false :=
  ⟨(c9_selection_excludes_test_questions "Fractions" [("Fractions", [1, 2, 3, 4])] [2]
      [] [] id (fun l => List.Perm.refl l)).1,
   (c9_selection_excludes_test_questions "Fractions" [("Fractions", [1, 2, 3, 4])] [2]
      [] [] id (fun l => List.Perm.refl l)).2 (renderQuestion [] [] 1) (by decide)⟩

/-- C10: get_llm_module is total over model-name strings and routes by
case-insensitive substrings with precedence qwen, then doubao, then gpt
(to mid_journey), with doubao as the silent fallback for every other name
including the empty string. -/
theorem c10_get_llm_module_routing :
    (∀ name : String, pyContains (pyToLower name) "qwen" = true →
      get_llm_module name = LLMModule.qwen) ∧
    (∀ name : String, pyContains (pyToLower name) "qwen" = false →
      pyContains (pyToLower name) "doubao" = true →
      get_llm_module name = LLMModule.doubao) ∧
    (∀ name : String, pyContains (pyToLower name) "qwen" = false →
      pyContains (pyToLower name) "doubao" = false →
      pyContains (pyToLower name) "gpt" = true →
      get_llm_module name = LLMModule.mid_journey) ∧
    (∀ name : String, pyContains (pyToLower name) "qwen" = false →
      pyContains (pyToLower name) "doubao" = false →
      pyContains (pyToLower name) "gpt" = false →
      get_llm_module name = LLMModule.doubao) ∧
    get_llm_module "" = LLMModule.doubao ∧
    get_llm_module "QWEN-Doubao-GPT" = LLMModule.qwen ∧
    get_llm_module "LLaMA-3-70B" = LLMModule.doubao := by
  refine ⟨?_, ?_, ?_, ?_, by decide, by decide, by decide⟩
  · intro name h1
    simp [get_llm_module, h1]
  · intro name h1 h2
    simp [get_llm_module, h1, h2]
  · intro name h1 h2 h3
    simp [get_llm_module, h1, h2, h3]
  · intro name h1 h2 h3
    simp [get_llm_module, h1, h2, h3]

/-- C10 witness: the four routing branches at concrete model names. -/
theorem c10_witness :
    get_llm_module "qwen-plus" = LLMModule.qwen ∧
    get_llm_module "doubao-seed-1-6-250615" = LLMModule.doubao ∧
    get_llm_module "gpt-3.5-turbo" = LLMModule.mid_journey ∧
    get_llm_module "claude-3" = LLMModule.doubao :=
  ⟨c10_get_llm_module_routing.1 "qwen-plus" (by decide),
   c10_get_llm_module_routing.2.1 "doubao-seed-1-6-250615" (by decide) (by decide),
   c10_get_llm_module_routing.2.2.1 "gpt-3.5-turbo" (by decide) (by decide) (by decide),
   c10_get_llm_module_routing.2.2.2.1 "claude-3" (by decide) (by decide) (by decide)⟩

end MALAS
